import Mathlib

/-!
Verification of the photo upload and preview state machine of the
random-chat client: the `PhotoSharingInput` dialog (photo selection,
validation, preview derivation, upload with progress, error handling,
cancel) and the `ProfilePage.handleImageChange` profile-image binding.

The React components are shallowly embedded: each `useState` hook becomes a
field of an explicit state record, each event handler becomes a pure
function from state (and event data) to state, and asynchronous operations
(`FileReader.readAsDataURL`, `uploadChatPhoto`, `uploadProfileImage`,
`updateDoc`) are split at their suspension points into a start phase and
one completion phase per outcome.  External calls made by a handler are
returned alongside the new state as explicit effect values.
-/

/-- A candidate file, as the handlers see it: a blob with a byte size and a
declared MIME type. -/
structure FileBlob where
  name : String
  size : Nat
  mimeType : String
deriving Repr, DecidableEq

/-- The `useState` hooks of `PhotoSharingInput` (src/unnamed/part_000,
lines 23-27): `selectedFile`, `previewUrl`, `isUploading`,
`uploadProgress`, `error`. -/
structure PhotoState where
  selectedFile : Option FileBlob
  previewUrl : String
  isUploading : Bool
  uploadProgress : Nat
  error : String
deriving Repr, DecidableEq

/-- The initial state of the dialog (the `useState` initialisers). -/
def initialPhotoState : PhotoState :=
  { selectedFile := none, previewUrl := "", isUploading := false,
    uploadProgress := 0, error := "" }

/-- The spec's session statuses. `Validating` and `Succeeded` are
transient (the handlers pass through them synchronously) and `Cancelled`
immediately resets, so only the four resting statuses are derivable from
the component state. -/
inductive Status
  | Idle
  | Ready
  | Uploading
  | Failed
deriving Repr, DecidableEq

/-- Status derived from the render of `PhotoSharingInput`
(src/unnamed/part_000, lines 111, 155, 196, 252): with no selected file the
selection screen shows, with its error panel when `error` is set; with a
selected file the preview screen shows, with the upload spinner when
`isUploading` is set. -/
def statusOf (s : PhotoState) : Status :=
  match s.selectedFile with
  | none => if s.error ≠ "" then Status.Failed else Status.Idle
  | some _ =>
    if s.isUploading then Status.Uploading
    else if s.error ≠ "" then Status.Failed
    else Status.Ready

/-- Whether the user can invoke the send action, from the render
(src/unnamed/part_000, lines 196, 247-249): the Send Photo button is
rendered only when a file is selected and is `disabled={isUploading}`. -/
def canConfirmSend (s : PhotoState) : Bool :=
  s.selectedFile.isSome && !s.isUploading

/-- Result of `validateImageFile`: mirrors the `{ isValid, error? }` shape
used at src/unnamed/part_000, lines 37-40. -/
structure ValidationResult where
  isValid : Bool
  error : Option String
deriving Repr, DecidableEq

/-- The accepted image MIME types of the validator. -/
def acceptedImageTypes : List String :=
  ["image/jpeg", "image/png", "image/gif", "image/webp"]

/-- The byte-size ceiling of the validator: the spec's configurable
image-specific maximum, e.g. 10 MB. -/
def maxImageSizeBytes : Nat := 10 * 1024 * 1024

/-- User-facing message for a rejected MIME type. -/
def typeErrorMessage : String :=
  "Invalid file type. Please select an image file."

/-- User-facing message for an oversized file. -/
def sizeErrorMessage : String :=
  "File is too large. Maximum size is 10MB."

/-- Modelled from the spec: `validateImageFile` lives in
`../lib/storageUtils`, which is not part of this excerpt.  The spec
describes it as a pure validator that rejects a blob whose MIME type is
not in the accepted image type set and a blob whose byte size exceeds the
configured ceiling, reporting which rule failed (type vs. size); otherwise
it accepts. -/
def validateImageFile (file : FileBlob) : ValidationResult :=
  if ¬ acceptedImageTypes.contains file.mimeType then
    { isValid := false, error := some typeErrorMessage }
  else if file.size > maxImageSizeBytes then
    { isValid := false, error := some sizeErrorMessage }
  else
    { isValid := true, error := none }

/-- External calls a file-selection event can make: `readAsDataURL`
requests to the `FileReader` and (for the frame property: none) upload
calls. -/
structure SelectEffects where
  readerRequests : List FileBlob
  uploadCalls : List FileBlob
deriving Repr, DecidableEq

/-- `handleFileSelect` (src/unnamed/part_000, lines 30-51) up to its
return: clears `error`; returns if no file was picked; on validation
failure stores `validation.error || "Invalid file"` and returns; on
success stores the file as `selectedFile` and starts a `FileReader` on it
(`readAsDataURL`, whose `onload` arrives asynchronously as
`previewLoaded`). -/
def handleFileSelect (s : PhotoState) (file : Option FileBlob) :
    PhotoState × SelectEffects :=
  let s0 := { s with error := "" }
  match file with
  | none => (s0, { readerRequests := [], uploadCalls := [] })
  | some f =>
    let validation := validateImageFile f
    if ¬ validation.isValid then
      ({ s0 with error := validation.error.getD "Invalid file" },
       { readerRequests := [], uploadCalls := [] })
    else
      ({ s0 with selectedFile := some f },
       { readerRequests := [f], uploadCalls := [] })

/-- The `FileReader` `onload` callback (src/unnamed/part_000, lines
45-49): sets `previewUrl` from `e.target?.result` when that result is
truthy (a JS string is truthy exactly when non-empty), else leaves the
state alone. -/
def previewLoaded (s : PhotoState) (result : Option String) : PhotoState :=
  match result with
  | none => s
  | some r => if r = "" then s else { s with previewUrl := r }

/-- An invocation of the `uploadChatPhoto` collaborator:
`uploadChatPhoto(selectedFile, chatId, userId, onProgress)`
(src/unnamed/part_000, lines 62-67). -/
structure UploadCall where
  file : FileBlob
  chatId : String
  userId : String
deriving Repr, DecidableEq

/-- The `{ url, path }` value an upload resolves with. -/
structure UploadResult where
  url : String
  path : String
deriving Repr, DecidableEq

/-- `handleSendPhoto` (src/unnamed/part_000, lines 53-67) up to its first
await: returns without effect if `selectedFile` is null; otherwise sets
`isUploading`, clears `error`, zeroes `uploadProgress`, and invokes the
upload collaborator with the file and the `chatId`/`userId` props. -/
def sendPhotoStart (chatId userId : String) (s : PhotoState) :
    PhotoState × Option UploadCall :=
  match s.selectedFile with
  | none => (s, none)
  | some f =>
    ({ s with isUploading := true, error := "", uploadProgress := 0 },
     some { file := f, chatId := chatId, userId := userId })

/-- The send action as the user can trigger it: the Send Photo button is
`disabled={isUploading}` (src/unnamed/part_000, line 249), so a click
while uploading does nothing. -/
def clickSendPhoto (chatId userId : String) (s : PhotoState) :
    PhotoState × Option UploadCall :=
  if s.isUploading then (s, none) else sendPhotoStart chatId userId s

/-- The upload progress callback `(progress) => setUploadProgress(progress)`
(src/unnamed/part_000, line 66). -/
def progressEvent (s : PhotoState) (p : Nat) : PhotoState :=
  { s with uploadProgress := p }

/-- Successful completion of `handleSendPhoto` (src/unnamed/part_000,
lines 69-75 and the `finally` at line 81): hands `(result.url, result.path)`
to the `onPhotoSelected` callback, then clears `selectedFile`,
`previewUrl` and `uploadProgress` and drops `isUploading`.  The callback
payload is returned alongside the state. -/
def sendPhotoSuccess (s : PhotoState) (result : UploadResult) :
    PhotoState × (String × String) :=
  ({ s with selectedFile := none, previewUrl := "", uploadProgress := 0,
            isUploading := false },
   (result.url, result.path))

/-- The fixed user-facing messages of the storage error classifier. -/
def networkErrorMessage : String :=
  "Network error. Please check your connection and try again."

/-- Classifier message for a server-side quota or size rejection. -/
def quotaErrorMessage : String :=
  "Storage limit exceeded. Please try a smaller file."

/-- Classifier message for a permission failure. -/
def permissionErrorMessage : String :=
  "You do not have permission to upload files."

/-- Classifier message for any other failure. -/
def unknownErrorMessage : String :=
  "Failed to upload. Please try again."

/-- The classifier's codomain: the small set of user-facing messages. -/
def storageErrorMessages : List String :=
  [networkErrorMessage, quotaErrorMessage, permissionErrorMessage,
   unknownErrorMessage]

/-- Whether the first character list is a prefix of the second. -/
def charListPrefixOf : List Char → List Char → Bool
  | [], _ => true
  | _ :: _, [] => false
  | a :: as, b :: bs => a == b && charListPrefixOf as bs

/-- Whether the first character list occurs inside the second. -/
def charListOccurs (pat : List Char) : List Char → Bool
  | [] => pat.isEmpty
  | c :: rest => charListPrefixOf pat (c :: rest) || charListOccurs pat rest

/-- True when `pat` occurs as a substring of `s`. -/
def containsSub (s pat : String) : Bool :=
  charListOccurs pat.data s.data

/-- Modelled from the spec: `getStorageErrorMessage` lives in
`../lib/storageUtils`, which is not part of this excerpt.  The spec
describes it as a pure function classifying the raw transport/storage
error into one of a small set of user-facing categories — network
failure, quota/size rejected server-side, permission denied, unknown —
never returning the raw error verbatim. -/
def getStorageErrorMessage (raw : String) : String :=
  if containsSub raw "network" then networkErrorMessage
  else if containsSub raw "quota" then quotaErrorMessage
  else if containsSub raw "permission" ∨ containsSub raw "unauthorized" then
    permissionErrorMessage
  else unknownErrorMessage

/-- Failing completion of `handleSendPhoto` (src/unnamed/part_000, lines
76-82): the raw error is logged, `error` is set to
`getStorageErrorMessage(error)`, and the `finally` drops `isUploading`.
`selectedFile`, `previewUrl` and `uploadProgress` are not touched. -/
def sendPhotoFailure (s : PhotoState) (rawError : String) : PhotoState :=
  { s with error := getStorageErrorMessage rawError, isUploading := false }

/-- `handleCancel` (src/unnamed/part_000, lines 85-91): clears
`selectedFile`, `previewUrl`, `error` and `uploadProgress`, then invokes
the `onCancel` prop.  It does not touch `isUploading`. -/
def handleCancel (s : PhotoState) : PhotoState :=
  { s with selectedFile := none, previewUrl := "", error := "",
           uploadProgress := 0 }

/-!
`ProfilePage.handleImageChange` (src/client/src/screens/ProfilePage.tsx,
lines 135-166): the profile-image binding around `uploadProfileImage`.
Only the hooks the handler touches are modelled.
-/

/-- The `useState` hooks of `ProfilePage` that `handleImageChange`
reads or writes: `profileImage`, `uploadingImage`, `uploadProgress`. -/
structure ProfileState where
  profileImage : Option String
  uploadingImage : Bool
  uploadProgress : Nat
deriving Repr, DecidableEq

/-- An invocation of the `uploadProfileImage` collaborator:
`uploadProfileImage(file, user.uid, onProgress)` (ProfilePage.tsx, lines
143-147). -/
structure ProfileUploadCall where
  file : FileBlob
  uid : String
deriving Repr, DecidableEq

/-- The `updateDoc` call issued on upload success (ProfilePage.tsx, lines
151-156): the record `users/<uid>` receives exactly the fields
`profileImage`, `profileImagePath` and `updatedAt`. -/
structure DocWrite where
  collectionName : String
  recordId : String
  profileImage : String
  profileImagePath : String
  updatedAt : Nat
deriving Repr, DecidableEq

/-- The observable external effects of one `handleImageChange` run. -/
structure ImageChangeEffects where
  uploadCalls : List ProfileUploadCall
  docWrites : List DocWrite
  persistedWrites : List DocWrite
  alerts : List String
  remoteDeletes : List String
deriving Repr, DecidableEq

/-- The empty effect record. -/
def noEffects : ImageChangeEffects :=
  { uploadCalls := [], docWrites := [], persistedWrites := [],
    alerts := [], remoteDeletes := [] }

/-- The generic alert of the `catch` branch (ProfilePage.tsx, line 161). -/
def uploadFailedAlert : String := "Failed to upload image. Please try again."

/-- `handleImageChange` up to its first await (ProfilePage.tsx, lines
135-147): returns without effect when no file was picked or no user is
signed in; otherwise raises the uploading overlay, zeroes the progress
and invokes the upload collaborator. -/
def imageChangeStart (uid : Option String) (file : Option FileBlob)
    (s : ProfileState) : ProfileState × Option ProfileUploadCall :=
  match file, uid with
  | some f, some u =>
    ({ s with uploadingImage := true, uploadProgress := 0 },
     some { file := f, uid := u })
  | _, _ => (s, none)

/-- The profile upload progress callback
`(progress) => setUploadProgress(progress)` (ProfilePage.tsx, line 146). -/
def profileProgressEvent (s : ProfileState) (p : Nat) : ProfileState :=
  { s with uploadProgress := p }

/-- Continuation after `uploadProfileImage` resolves (ProfilePage.tsx,
lines 149-156): sets the local `profileImage` to the uploaded URL and
then issues the `updateDoc` write of `{profileImage, profileImagePath,
updatedAt}` to `users/<uid>`.  The state returned is the state at the
moment the write is awaited. -/
def imageChangeUploadSucceeded (uid : String) (result : UploadResult)
    (now : Nat) (s : ProfileState) : ProfileState × DocWrite :=
  ({ s with profileImage := some result.url },
   { collectionName := "users", recordId := uid,
     profileImage := result.url, profileImagePath := result.path,
     updatedAt := now })

/-- Continuation after `uploadProfileImage` rejects (ProfilePage.tsx,
lines 159-165): logs, raises the generic alert, and in `finally` drops the
overlay and zeroes the progress.  `profileImage` is untouched. -/
def imageChangeUploadFailed (s : ProfileState) : ProfileState × List String :=
  ({ s with uploadingImage := false, uploadProgress := 0 },
   [uploadFailedAlert])

/-- Continuation after the `updateDoc` write resolves (ProfilePage.tsx,
lines 158, 162-165): logs success, and in `finally` drops the overlay and
zeroes the progress. -/
def imageChangePersistOk (s : ProfileState) : ProfileState :=
  { s with uploadingImage := false, uploadProgress := 0 }

/-- Continuation after the `updateDoc` write rejects (ProfilePage.tsx,
lines 159-165): the same `catch`/`finally` as an upload failure — generic
alert, overlay dropped, progress zeroed.  Neither `profileImage` nor the
already-uploaded remote file is touched. -/
def imageChangePersistFailed (s : ProfileState) : ProfileState × List String :=
  ({ s with uploadingImage := false, uploadProgress := 0 },
   [uploadFailedAlert])

/-- How the environment resolves one `handleImageChange` run: the upload
rejects with a raw error, or it resolves and the persistence write then
resolves or rejects. -/
inductive ImageChangeOutcome
  | uploadFailed (raw : String)
  | persistOk (result : UploadResult) (now : Nat)
  | persistFailed (result : UploadResult) (now : Nat) (raw : String)
deriving Repr, DecidableEq

/-- One whole `handleImageChange` run, composed from the phases, with the
external calls it makes collected as effects.  `docWrites` lists the
`updateDoc` calls issued, `persistedWrites` those that succeeded;
`remoteDeletes` would list storage cleanup calls, of which the handler
makes none. -/
def runImageChange (uid : Option String) (file : Option FileBlob)
    (outcome : ImageChangeOutcome) (s : ProfileState) :
    ProfileState × ImageChangeEffects :=
  match imageChangeStart uid file s with
  | (s1, none) => (s1, noEffects)
  | (s1, some call) =>
    match outcome with
    | ImageChangeOutcome.uploadFailed _ =>
      let (s2, alerts) := imageChangeUploadFailed s1
      (s2, { noEffects with uploadCalls := [call], alerts := alerts })
    | ImageChangeOutcome.persistOk result now =>
      let (s2, write) := imageChangeUploadSucceeded call.uid result now s1
      (imageChangePersistOk s2,
       { noEffects with uploadCalls := [call], docWrites := [write],
                        persistedWrites := [write] })
    | ImageChangeOutcome.persistFailed result now _ =>
      let (s2, write) := imageChangeUploadSucceeded call.uid result now s1
      let (s3, alerts) := imageChangePersistFailed s2
      (s3, { noEffects with uploadCalls := [call], docWrites := [write],
                            alerts := alerts })

/-!
Claims.  Each claim of the specification is settled by one theorem below;
corrected claims additionally get a closed counterexample at a concrete
input.
-/

/-- Claim C5: calling cancel (`handleCancel`) from any state yields `Idle`
with all transient fields cleared — `selectedFile`, `previewUrl`,
`uploadProgress` and `error` are reset to their empty/zero values. -/
theorem cancel_clears_session (s : PhotoState) :
    (handleCancel s).selectedFile = none ∧
    (handleCancel s).previewUrl = "" ∧
    (handleCancel s).uploadProgress = 0 ∧
    (handleCancel s).error = "" ∧
    statusOf (handleCancel s) = Status.Idle := by
  refine ⟨rfl, rfl, rfl, rfl, ?_⟩
  simp [handleCancel, statusOf]

/-- Claim C7: when the upload of `handleImageChange` succeeds, exactly one
document write is issued, to the record `users/<uid>`, carrying exactly
the three fields remote URL, storage path and the `updatedAt` timestamp,
with the url and path returned by the upload collaborator. -/
theorem imageChange_success_persists_three_fields (u : String) (f : FileBlob)
    (result : UploadResult) (now : Nat) (s : ProfileState) :
    (runImageChange (some u) (some f)
        (ImageChangeOutcome.persistOk result now) s).2.docWrites =
      [{ collectionName := "users", recordId := u,
         profileImage := result.url, profileImagePath := result.path,
         updatedAt := now }] ∧
    (runImageChange (some u) (some f)
        (ImageChangeOutcome.persistOk result now) s).2.persistedWrites =
      [{ collectionName := "users", recordId := u,
         profileImage := result.url, profileImagePath := result.path,
         updatedAt := now }] := by
  exact ⟨rfl, rfl⟩

/-- Claim C8: if the persistence write fails after a successful upload,
`handleImageChange` surfaces the generic alert (not the raw error),
performs no cleanup of the already-uploaded remote file, and the
uploading overlay is dismissed — indeed `uploadingImage` is false after
every outcome of the run. -/
theorem imageChange_persist_failure_generic_alert_no_cleanup
    (u : String) (f : FileBlob) (result : UploadResult) (now : Nat)
    (raw : String) (s : ProfileState) :
    (runImageChange (some u) (some f)
        (ImageChangeOutcome.persistFailed result now raw) s).2.alerts =
      [uploadFailedAlert] ∧
    (runImageChange (some u) (some f)
        (ImageChangeOutcome.persistFailed result now raw) s).2.remoteDeletes =
      [] ∧
    (runImageChange (some u) (some f)
        (ImageChangeOutcome.persistFailed result now raw) s).1.uploadingImage =
      false ∧
    (∀ outcome : ImageChangeOutcome,
      (runImageChange (some u) (some f) outcome s).1.uploadingImage = false) := by
  refine ⟨rfl, rfl, rfl, ?_⟩
  intro outcome
  cases outcome <;> rfl

/-- Claim C9: `handleImageChange` is a no-op when invoked with no file
selected or with no authenticated user: the component state is unchanged
and no upload call, document write or alert is made. -/
theorem imageChange_noop_without_file_or_user (uid : Option String)
    (file : Option FileBlob) (outcome : ImageChangeOutcome)
    (s : ProfileState) :
    runImageChange uid none outcome s = (s, noEffects) ∧
    runImageChange none file outcome s = (s, noEffects) := by
  constructor
  · cases uid <;> rfl
  · cases file <;> rfl

/-- Claim C10: if the upload succeeds but the profile-record write fails,
the local `profileImage` already holds the new remote URL when the write
is awaited, the failure continuation does not revert it, and the run ends
with `profileImage` set to the URL while no write was persisted — the
displayed image and the persisted record diverge. -/
theorem imageChange_persist_failure_keeps_local_url (u : String)
    (f : FileBlob) (result : UploadResult) (now : Nat) (raw : String)
    (s : ProfileState) :
    (imageChangeUploadSucceeded u result now s).1.profileImage =
      some result.url ∧
    (imageChangePersistFailed
        (imageChangeUploadSucceeded u result now s).1).1.profileImage =
      some result.url ∧
    (runImageChange (some u) (some f)
        (ImageChangeOutcome.persistFailed result now raw) s).1.profileImage =
      some result.url ∧
    (runImageChange (some u) (some f)
        (ImageChangeOutcome.persistFailed result now raw) s).2.persistedWrites =
      [] := by
  exact ⟨rfl, rfl, rfl, rfl⟩

/-- The type-failure message is non-empty. -/
theorem typeErrorMessage_ne_empty : typeErrorMessage ≠ "" := by decide

/-- The size-failure message is non-empty. -/
theorem sizeErrorMessage_ne_empty : sizeErrorMessage ≠ "" := by decide

/-- A state with no selected file and a non-empty error renders as
`Failed`. -/
theorem statusOf_failed_of_error (s : PhotoState)
    (h1 : s.selectedFile = none) (h2 : s.error ≠ "") :
    statusOf s = Status.Failed := by
  unfold statusOf
  rw [h1]
  simp [h2]

/-- Characterisation of `validateImageFile` on a disallowed MIME type. -/
theorem validateImageFile_type_fail (f : FileBlob)
    (h : acceptedImageTypes.contains f.mimeType = false) :
    validateImageFile f = { isValid := false, error := some typeErrorMessage } := by
  have h' : f.mimeType ∉ acceptedImageTypes := by simpa using h
  simp [validateImageFile, h']

/-- Characterisation of `validateImageFile` on an oversized file of an
accepted type. -/
theorem validateImageFile_size_fail (f : FileBlob)
    (h1 : acceptedImageTypes.contains f.mimeType = true)
    (h2 : maxImageSizeBytes < f.size) :
    validateImageFile f = { isValid := false, error := some sizeErrorMessage } := by
  have h' : f.mimeType ∈ acceptedImageTypes := by simpa using h1
  simp [validateImageFile, h', h2]

/-- Characterisation of `validateImageFile` on an accepted file. -/
theorem validateImageFile_ok (f : FileBlob)
    (h1 : acceptedImageTypes.contains f.mimeType = true)
    (h2 : f.size ≤ maxImageSizeBytes) :
    validateImageFile f = { isValid := true, error := none } := by
  have h' : f.mimeType ∈ acceptedImageTypes := by simpa using h1
  simp [validateImageFile, h', Nat.not_lt.mpr h2]

/-- `handleFileSelect` on a file that fails validation only stores the
validator's message. -/
theorem handleFileSelect_invalid (s : PhotoState) (f : FileBlob) (msg : String)
    (h : validateImageFile f = { isValid := false, error := some msg }) :
    handleFileSelect s (some f) =
      ({ s with error := msg }, { readerRequests := [], uploadCalls := [] }) := by
  simp [handleFileSelect, h]

/-- `handleFileSelect` on a file that passes validation stores it and
requests the preview derivation. -/
theorem handleFileSelect_valid (s : PhotoState) (f : FileBlob)
    (h : (validateImageFile f).isValid = true) :
    handleFileSelect s (some f) =
      ({ s with error := "", selectedFile := some f },
       { readerRequests := [f], uploadCalls := [] }) := by
  simp [handleFileSelect, h]

/-- Claim C1: a selected file that fails validation (disallowed MIME type
or byte size over the ceiling) leaves the dialog in `Failed` with the
user-facing message of the failed rule, without mutating `selectedFile`
or `previewUrl` and without any upload call or preview derivation. -/
theorem selectFile_validation_failure (s : PhotoState) (f : FileBlob)
    (hsel : s.selectedFile = none)
    (hval : (validateImageFile f).isValid = false) :
    (handleFileSelect s (some f)).1.selectedFile = s.selectedFile ∧
    (handleFileSelect s (some f)).1.previewUrl = s.previewUrl ∧
    statusOf (handleFileSelect s (some f)).1 = Status.Failed ∧
    (acceptedImageTypes.contains f.mimeType = false →
      (handleFileSelect s (some f)).1.error = typeErrorMessage) ∧
    (acceptedImageTypes.contains f.mimeType = true →
      (handleFileSelect s (some f)).1.error = sizeErrorMessage) ∧
    (handleFileSelect s (some f)).2.uploadCalls = [] ∧
    (handleFileSelect s (some f)).2.readerRequests = [] := by
  by_cases hty : acceptedImageTypes.contains f.mimeType = true
  · have hsz : maxImageSizeBytes < f.size := by
      rcases Nat.lt_or_ge maxImageSizeBytes f.size with h | h
      · exact h
      · rw [validateImageFile_ok f hty h] at hval
        cases hval
    rw [handleFileSelect_invalid s f sizeErrorMessage
          (validateImageFile_size_fail f hty hsz)]
    refine ⟨rfl, rfl, ?_, ?_, fun _ => rfl, rfl, rfl⟩
    · exact statusOf_failed_of_error _ hsel sizeErrorMessage_ne_empty
    · intro h
      rw [hty] at h
      cases h
  · have hty' : acceptedImageTypes.contains f.mimeType = false := by
      simpa using hty
    rw [handleFileSelect_invalid s f typeErrorMessage
          (validateImageFile_type_fail f hty')]
    refine ⟨rfl, rfl, ?_, fun _ => rfl, ?_, rfl, rfl⟩
    · exact statusOf_failed_of_error _ hsel typeErrorMessage_ne_empty
    · intro h
      rw [hty'] at h
      cases h

/-- Claim C1 witness: a 1 KB `video/mp4` blob selected in the initial
state. -/
theorem selectFile_validation_failure_witness :
    (handleFileSelect initialPhotoState
        (some { name := "clip.mp4", size := 1024, mimeType := "video/mp4" })).1.selectedFile
      = initialPhotoState.selectedFile ∧
    (handleFileSelect initialPhotoState
        (some { name := "clip.mp4", size := 1024, mimeType := "video/mp4" })).1.previewUrl
      = initialPhotoState.previewUrl ∧
    statusOf (handleFileSelect initialPhotoState
        (some { name := "clip.mp4", size := 1024, mimeType := "video/mp4" })).1
      = Status.Failed ∧
    (acceptedImageTypes.contains "video/mp4" = false →
      (handleFileSelect initialPhotoState
          (some { name := "clip.mp4", size := 1024, mimeType := "video/mp4" })).1.error
        = typeErrorMessage) ∧
    (acceptedImageTypes.contains "video/mp4" = true →
      (handleFileSelect initialPhotoState
          (some { name := "clip.mp4", size := 1024, mimeType := "video/mp4" })).1.error
        = sizeErrorMessage) ∧
    (handleFileSelect initialPhotoState
        (some { name := "clip.mp4", size := 1024, mimeType := "video/mp4" })).2.uploadCalls
      = [] ∧
    (handleFileSelect initialPhotoState
        (some { name := "clip.mp4", size := 1024, mimeType := "video/mp4" })).2.readerRequests
      = [] :=
  selectFile_validation_failure initialPhotoState
    { name := "clip.mp4", size := 1024, mimeType := "video/mp4" } rfl (by decide)

/-- A 2 MB JPEG blob, which passes validation. -/
def validJpeg : FileBlob :=
  { name := "photo.jpg", size := 2097152, mimeType := "image/jpeg" }

/-- A concrete session state mid-upload: a selected file, its preview, the
uploading flag set and a last reported progress of 40. -/
def photoUploadingState : PhotoState :=
  { selectedFile := some validJpeg,
    previewUrl := "data:image/jpeg;base64,AAAA", isUploading := true,
    uploadProgress := 40, error := "" }

/-- Claim C2 counterexample: calling `handleSendPhoto` directly in an
`Uploading` state (which is not `Ready`) is not a no-op — the guard only
checks that a file is selected, so a second upload call is issued and
`uploadProgress` is mutated from 40 to 0. -/
theorem sendPhoto_while_uploading_not_noop :
    statusOf photoUploadingState = Status.Uploading ∧
    (sendPhotoStart "default" "anonymous" photoUploadingState).2.isSome = true ∧
    (sendPhotoStart "default" "anonymous" photoUploadingState).1.uploadProgress = 0 ∧
    photoUploadingState.uploadProgress = 40 := by
  decide

/-- Claim C2 amended: `handleSendPhoto` is a no-op — state unchanged and
no upload call — exactly when no file is selected; a second send while an
upload is in flight is prevented one layer up, by the send button being
disabled while `isUploading`, so the user-triggerable click action is a
no-op in every uploading state. -/
theorem sendPhoto_noop_guards (chatId userId : String) (s : PhotoState) :
    (s.selectedFile = none → sendPhotoStart chatId userId s = (s, none)) ∧
    (s.isUploading = true → clickSendPhoto chatId userId s = (s, none)) := by
  constructor
  · intro h
    simp [sendPhotoStart, h]
  · intro h
    simp [clickSendPhoto, h]

/-- Claim C2 witness: the no-file guard at the initial state and the
disabled-button guard at a concrete uploading state. -/
theorem sendPhoto_noop_guards_witness :
    sendPhotoStart "default" "anonymous" initialPhotoState =
      (initialPhotoState, none) ∧
    clickSendPhoto "default" "anonymous" photoUploadingState =
      (photoUploadingState, none) :=
  ⟨(sendPhoto_noop_guards "default" "anonymous" initialPhotoState).1 rfl,
   (sendPhoto_noop_guards "default" "anonymous" photoUploadingState).2 rfl⟩

/-- Claim C3 counterexample: immediately after a valid selection the
session is `Ready` and the send action is already available, while the
preview is still empty — the `FileReader` result only arrives
asynchronously, after the state that makes `confirmSend` callable. -/
theorem ready_reached_before_preview :
    statusOf (handleFileSelect initialPhotoState (some validJpeg)).1 =
      Status.Ready ∧
    canConfirmSend (handleFileSelect initialPhotoState (some validJpeg)).1 =
      true ∧
    (handleFileSelect initialPhotoState (some validJpeg)).1.previewUrl = "" := by
  decide

/-- Claim C3 amended: for a blob passing validation, `handleFileSelect`
stores the file — making the send action callable when no upload is in
flight — and requests the preview derivation, which completes
asynchronously; once the reader delivers a non-empty result the preview
is set to it. -/
theorem selectFile_valid_async_preview (s : PhotoState) (f : FileBlob)
    (r : String) (hval : (validateImageFile f).isValid = true)
    (hup : s.isUploading = false) (hr : r ≠ "") :
    (handleFileSelect s (some f)).1.selectedFile = some f ∧
    (handleFileSelect s (some f)).2.readerRequests = [f] ∧
    canConfirmSend (handleFileSelect s (some f)).1 = true ∧
    (handleFileSelect s (some f)).1.previewUrl = s.previewUrl ∧
    (previewLoaded (handleFileSelect s (some f)).1 (some r)).previewUrl = r := by
  rw [handleFileSelect_valid s f hval]
  refine ⟨rfl, rfl, ?_, rfl, ?_⟩
  · simp [canConfirmSend, hup]
  · simp [previewLoaded, hr]

/-- Claim C3 witness: the 2 MB JPEG selected in the initial state, with a
data-URL reader result. -/
theorem selectFile_valid_async_preview_witness :
    (handleFileSelect initialPhotoState (some validJpeg)).1.selectedFile =
      some validJpeg ∧
    (handleFileSelect initialPhotoState (some validJpeg)).2.readerRequests =
      [validJpeg] ∧
    canConfirmSend (handleFileSelect initialPhotoState (some validJpeg)).1 =
      true ∧
    (handleFileSelect initialPhotoState (some validJpeg)).1.previewUrl =
      initialPhotoState.previewUrl ∧
    (previewLoaded (handleFileSelect initialPhotoState (some validJpeg)).1
        (some "data:image/jpeg;base64,AAAA")).previewUrl =
      "data:image/jpeg;base64,AAAA" :=
  selectFile_valid_async_preview initialPhotoState validJpeg
    "data:image/jpeg;base64,AAAA" (by decide) rfl (by decide)

/-- The state after selecting a valid JPEG, starting the upload, receiving
a progress event of 40 and then a transport failure. -/
def failedAfterProgressState : PhotoState :=
  sendPhotoFailure
    (progressEvent
      (sendPhotoStart "default" "anonymous"
        (handleFileSelect initialPhotoState (some validJpeg)).1).1 40)
    "Firebase Storage: network request failed"

/-- Claim C4 counterexample: after an upload failure the session is
`Failed` and `uploadProgress` still reads 40, not 0 — neither the `catch`
nor the `finally` of `handleSendPhoto` resets it — and a subsequent file
selection does not reset it either. -/
theorem progress_not_zero_in_failed :
    statusOf failedAfterProgressState = Status.Failed ∧
    failedAfterProgressState.uploadProgress = 40 ∧
    (handleFileSelect failedAfterProgressState (some validJpeg)).1.uploadProgress =
      40 := by
  decide

/-- Claim C4 amended: `uploadProgress` is zeroed when an upload attempt
starts, on successful completion, and on cancel; a failing completion and
a file-selection event leave it unchanged, so after a failed upload it
retains its last reported value in the `Failed` state (the UI renders
progress only while `isUploading` is set). -/
theorem progress_reset_points (chatId userId : String) (s : PhotoState)
    (f : FileBlob) (g : Option FileBlob) (result : UploadResult)
    (raw : String) :
    (sendPhotoStart chatId userId
        { s with selectedFile := some f }).1.uploadProgress = 0 ∧
    (sendPhotoSuccess s result).1.uploadProgress = 0 ∧
    (handleCancel s).uploadProgress = 0 ∧
    (handleFileSelect s g).1.uploadProgress = s.uploadProgress ∧
    (sendPhotoFailure s raw).uploadProgress = s.uploadProgress := by
  refine ⟨rfl, rfl, rfl, ?_, rfl⟩
  cases g with
  | none => rfl
  | some f' =>
    unfold handleFileSelect
    by_cases h : (validateImageFile f').isValid
    · simp [h]
    · simp [h]

/-- The classifier only ever returns one of its fixed user-facing
messages. -/
theorem getStorageErrorMessage_mem (raw : String) :
    getStorageErrorMessage raw ∈ storageErrorMessages := by
  unfold getStorageErrorMessage
  repeat' split
  all_goals simp [storageErrorMessages]

/-- Claim C6: on upload failure the stored error is the output of the pure
classifier applied to the raw error — an element of the classifier's
fixed set of user-facing messages — and, for any raw error outside that
fixed set, never the raw string itself. -/
theorem failure_stores_classified_error (s : PhotoState) (raw : String)
    (hraw : raw ∉ storageErrorMessages) :
    (sendPhotoFailure s raw).error = getStorageErrorMessage raw ∧
    getStorageErrorMessage raw ∈ storageErrorMessages ∧
    (sendPhotoFailure s raw).error ≠ raw := by
  refine ⟨rfl, getStorageErrorMessage_mem raw, ?_⟩
  intro h
  have h' : getStorageErrorMessage raw = raw := h
  exact hraw (h' ▸ getStorageErrorMessage_mem raw)

/-- Claim C6 witness: a raw Firebase transport error is classified to the
network message. -/
theorem failure_stores_classified_error_witness :
    (sendPhotoFailure initialPhotoState
        "Firebase Storage: network request failed").error =
      getStorageErrorMessage "Firebase Storage: network request failed" ∧
    getStorageErrorMessage "Firebase Storage: network request failed" ∈
      storageErrorMessages ∧
    (sendPhotoFailure initialPhotoState
        "Firebase Storage: network request failed").error ≠
      "Firebase Storage: network request failed" :=
  failure_stores_classified_error initialPhotoState
    "Firebase Storage: network request failed" (by decide)
